import Mathlib

/-!
Verification model of the crash-mcp session/store subsystem.

Shallow embedding of:
  src/crash_mcp/common/command_store.py   (CommandStore, CommandResult)
  src/crash_mcp/common/session_manager.py (SessionManager, SessionInfo)
  src/crash_mcp/common/unified_session.py (UnifiedSession routing, relevant context)
  src/crash_mcp/common/base_session.py    (BaseSession.execute_command, _smart_truncate)
  src/crash_mcp/crash/session.py          (CrashSession._smart_truncate)

Python strings are modelled as Lean `String` (a list of characters), Python
dicts keyed by strings as association lists, the filesystem visible to the
store as an association list from file name to file text (writes always
succeed; `IOError` fallback branches are therefore dead in the model),
`time.time()` as an explicit `now` argument, and `float` durations and
timestamps as rationals.  MD5 (`hashlib.md5(...).hexdigest()`) is an external
library call and is modelled as an explicit `digest : String -> String`
parameter; every theorem below holds for an arbitrary digest function.
-/

/-- Python `str.strip()` on ASCII whitespace (space, tab, CR, LF): drop
whitespace from both ends of a character list. -/
def pyStripL (l : List Char) : List Char :=
  ((l.dropWhile Char.isWhitespace).reverse.dropWhile Char.isWhitespace).reverse

/-- Python `str.strip()` lifted to `String`. -/
def pyStrip (s : String) : String :=
  ⟨pyStripL s.data⟩

/-- Helper for Python `str.split()` (no separator): accumulate the current
word (in reverse) and split on runs of whitespace, discarding empty pieces. -/
def pyWordsAux (acc : List Char) : List Char → List (List Char)
  | [] => if acc.isEmpty then [] else [acc.reverse]
  | c :: rest =>
    if c.isWhitespace then
      if acc.isEmpty then pyWordsAux [] rest else acc.reverse :: pyWordsAux [] rest
    else
      pyWordsAux (c :: acc) rest

/-- Python `str.split()` with no arguments: whitespace-delimited words. -/
def pyWords (l : List Char) : List (List Char) :=
  pyWordsAux [] l

/-- Python `str.splitlines()` restricted to the line breaks that occur in this
code base: `\n`, `\r\n` and `\r`.  (Python also splits on rarer control
characters; none are produced by the modelled code paths.) -/
def pySplitlinesAux (acc : List Char) : List Char → List String
  | [] => if acc.isEmpty then [] else [⟨acc.reverse⟩]
  | '\r' :: '\n' :: rest => String.mk acc.reverse :: pySplitlinesAux [] rest
  | '\r' :: rest => String.mk acc.reverse :: pySplitlinesAux [] rest
  | '\n' :: rest => String.mk acc.reverse :: pySplitlinesAux [] rest
  | c :: rest => pySplitlinesAux (c :: acc) rest

/-- Python `str.splitlines()` lifted to `String`. -/
def pySplitlines (s : String) : List String :=
  pySplitlinesAux [] s.data

/-- Python `"\n".join(lines)`. -/
def joinLines (lines : List String) : String :=
  String.intercalate "\n" lines

/-- Python slice `s[:n]` on a string. -/
def pyTake (s : String) (n : Nat) : String :=
  ⟨s.data.take n⟩

/-- Python slice `s[n:]` on a string. -/
def pyDrop (s : String) (n : Nat) : String :=
  ⟨s.data.drop n⟩

/-- Python slice `s[-n:]` for `n ≥ 1`: the last `min n (length s)`
characters.  The modelled code only applies it to positive `n`. -/
def pyLastN (s : String) (n : Nat) : String :=
  ⟨s.data.drop (s.data.length - n)⟩

/-- Python substring test `needle in hay`. -/
def pyInStr (needle hay : String) : Bool :=
  decide (needle.data <:+: hay.data)

/-- Python `hay.startswith(pre)` on character lists. -/
def pyStartsWith (s pre : String) : Bool :=
  pre.data.isPrefixOf s.data

/-- Python single-character substring test `c in s` (used by the routing
heuristic with the one-character strings `=`, `(`, `.`, `[`). -/
def pyContainsChar (s : String) (c : Char) : Bool :=
  s.data.contains c

/-- First whitespace-delimited word of a character list, or `""` when there
is none (`cmd.split()[0] if cmd else ""` patterns). -/
def headWord (l : List Char) : String :=
  match pyWords l with
  | w :: _ => String.mk w
  | [] => ""

/-- Lookup in an association list modelling a Python dict. -/
def lookupA {α : Type} (m : List (String × α)) (k : String) : Option α :=
  match m with
  | [] => none
  | (k', v) :: rest => if k' = k then some v else lookupA rest k

/-- Python dict assignment `m[k] = v`: replace in place or append. -/
def upsertA {α : Type} (m : List (String × α)) (k : String) (v : α) :
    List (String × α) :=
  match m with
  | [] => [(k, v)]
  | (k', v') :: rest => if k' = k then (k, v) :: rest else (k', v') :: upsertA rest k v

theorem lookupA_upsertA_self {α : Type} (m : List (String × α)) (k : String) (v : α) :
    lookupA (upsertA m k v) k = some v := by
  induction m with
  | nil => simp [upsertA, lookupA]
  | cons hd tl ih =>
    obtain ⟨k', v'⟩ := hd
    by_cases h : k' = k
    · simp [upsertA, lookupA, h]
    · simp [upsertA, lookupA, h, ih]

theorem lookupA_upsertA_ne {α : Type} (m : List (String × α)) (k k' : String) (v : α)
    (h : k' ≠ k) : lookupA (upsertA m k v) k' = lookupA m k' := by
  have hne : ¬k = k' := fun hh => h hh.symm
  induction m with
  | nil =>
    simp only [upsertA, lookupA]
    rw [if_neg hne]
  | cons hd tl ih =>
    obtain ⟨k0, v0⟩ := hd
    by_cases h0 : k0 = k
    · subst h0
      simp only [upsertA, if_pos rfl, lookupA]
      rw [if_neg hne, if_neg hne]
    · simp only [upsertA, if_neg h0, lookupA]
      rw [ih]

/-!
ANSI escape stripping (`base_session.py` line 16):
`ANSI_ESCAPE_PATTERN = re.compile(r'\x1b\[[0-9;?]*[a-zA-Z]|\x1b\].*?\x07')`
applied with `.sub('', output)`.  The scanner below mirrors `re.sub`: at each
position it tries to match a CSI sequence (`ESC [ [0-9;?]* letter`) or an OSC
sequence (`ESC ] shortest-run \a`, where `.` does not cross a newline); an
unmatched ESC is kept and scanning resumes at the following character (no
match can start inside a discarded span, and none can start at a character
other than ESC).
-/

/-- Characters allowed in the parameter part of a CSI sequence: `[0-9;?]`. -/
def isCsiParam (c : Char) : Bool :=
  c.isDigit || c = ';' || c = '?'

/-- Match `[0-9;?]*[a-zA-Z]` at the head of the list; on success return the
remainder after the terminating letter. -/
def csiSpan : List Char → Option (List Char)
  | [] => none
  | c :: rest =>
    if isCsiParam c then csiSpan rest
    else if c.isAlpha then some rest
    else none

/-- Match the non-greedy `.*?\x07` of the OSC alternative at the head of the
list: succeed at the first BEL, fail on a newline (Python `.` does not match
`\n`) or at end of input. -/
def oscSpan : List Char → Option (List Char)
  | [] => none
  | c :: rest =>
    if c = '\x07' then some rest
    else if c = '\n' then none
    else oscSpan rest

/-- Fuel-indexed scanner for `ANSI_ESCAPE_PATTERN.sub('', ·)`.  Every
recursive call consumes at least one character, so fuel equal to the input
length (supplied by `ansiStrip`) is always sufficient and the fuel-exhausted
branch is unreachable. -/
def ansiGoF : Nat → List Char → List Char
  | 0, l => l
  | _ + 1, [] => []
  | fuel + 1, c :: cs =>
    if c = '\x1b' then
      match cs with
      | '[' :: rest =>
        match csiSpan rest with
        | some rest2 => ansiGoF fuel rest2
        | none => '\x1b' :: ansiGoF fuel cs
      | ']' :: rest =>
        match oscSpan rest with
        | some rest2 => ansiGoF fuel rest2
        | none => '\x1b' :: ansiGoF fuel cs
      | _ => '\x1b' :: ansiGoF fuel cs
    else c :: ansiGoF fuel cs

/-- Model of `ANSI_ESCAPE_PATTERN.sub('', s)` from `base_session.py`. -/
def ansiStrip (s : String) : String :=
  ⟨ansiGoF s.data.length s.data⟩

/-!
Truncation policy (`BaseSession._smart_truncate`, `base_session.py` lines
241-263, and `CrashSession._smart_truncate`, `crash/session.py` lines
204-227).  Note that the default marker is built with literal `\\n` escapes
in the Python source, so it contains two-character backslash-n sequences,
not newlines.
-/

/-- The elision marker of the default head+tail strategy
(`base_session.py` line 261); `removed` is `len(output) - MAX_LEN`. -/
def truncMarker (removed : Nat) : String :=
  "\\n\\n... [Output truncated by Crash MCP (" ++ toString removed ++
    " characters skipped). Use specific commands to view more.] ...\\n\\n"

/-- Model of `BaseSession._smart_truncate`: unchanged when at most 16384
characters, otherwise first 4096 characters, the elision marker, and the
last 12288 characters.  The `command` argument is unused, as in the source. -/
def baseSmartTruncate (output command : String) : String :=
  if output.length ≤ 16384 then output
  else
    pyTake output 4096 ++ truncMarker (output.length - 16384) ++ pyLastN output 12288

/-- The header inserted by the tail-only strategy for `log`
(`crash/session.py` line 222, with `MAX_LEN = 16384` interpolated). -/
def logTruncHeader : String :=
  "... [Log truncated (Head). Showing last 16384 chars] ...\n\n"

/-- First whitespace-delimited token of a command after stripping:
`command.strip().split()[0]`, as `none` when there is no token (in which case
the Python source raises `IndexError`). -/
def firstTokenOpt (command : String) : Option String :=
  match pyWords (pyStrip command).data with
  | w :: _ => some (String.mk w)
  | [] => none

/-- Model of `CrashSession._smart_truncate`.  The length guard runs first; on
over-limit output the source evaluates `command.strip().split()[0]`, which
raises `IndexError` when the command has no token — modelled as `none`. -/
def crashSmartTruncate (output command : String) : Option String :=
  if output.length ≤ 16384 then some output
  else
    match firstTokenOpt command with
    | none => none
    | some w =>
      if w = "log" then some (logTruncHeader ++ pyLastN output 16384)
      else some (baseSmartTruncate output command)

/-!
Command routing (`UnifiedSession.execute_command`, `unified_session.py`
lines 112-141).  The function below returns the engine chosen together with
the exact command text handed to `_exec_drgn` / `_exec_crash` /
`_exec_pykdump`.
-/

/-- The engine a command is dispatched to. -/
inductive RouteTarget where
  | crashEngine
  | drgnEngine
  | pykdumpEngine
deriving DecidableEq

/-- The Engine-A (crash) vocabulary of the routing heuristic
(`unified_session.py` line 126). -/
def crashCmds : List String :=
  ["sys", "bt", "ps", "log", "mount", "net", "dev", "files", "help", "set", "extend"]

/-- Known drgn object names of the routing heuristic
(`unified_session.py` line 133). -/
def drgnNames : List String :=
  ["prog", "task", "thread"]

/-- Routing decision on the already-stripped command text
(`unified_session.py` lines 114-141 after `cmd = command.strip()`). -/
def routeCore (cmd : String) : RouteTarget × String :=
  if pyStartsWith cmd "drgn:" then (.drgnEngine, pyStrip (pyDrop cmd 5))
  else if pyStartsWith cmd "crash:" then (.crashEngine, pyStrip (pyDrop cmd 6))
  else if pyStartsWith cmd "pykdump:" then (.pykdumpEngine, pyStrip (pyDrop cmd 8))
  else
    let firstW := headWord cmd.data
    let isDrgn :=
      if crashCmds.contains firstW then false
      else if pyContainsChar cmd '=' || pyContainsChar cmd '(' ||
          pyContainsChar cmd '.' || pyContainsChar cmd '[' then true
      else if drgnNames.contains firstW then true
      else false
    if isDrgn then (.drgnEngine, cmd) else (.crashEngine, cmd)

/-- Model of `UnifiedSession.execute_command`'s routing of a raw command. -/
def routeCommand (command : String) : RouteTarget × String :=
  routeCore (pyStrip command)

/-!
Command fingerprints (`CommandStore._make_id`, `command_store.py` lines
237-250) and the relevant-context filter
(`UnifiedSession._get_relevant_context`, `unified_session.py` lines 215-220).
`hashlib.md5(x.encode()).hexdigest()` is modelled by the explicit `digest`
parameter.
-/

/-- Order used by Python `sorted(context.items())`: lexicographic on the
(key, value) pair. -/
def pairLe (a b : String × String) : Bool :=
  decide (a.1 < b.1) || (decide (a.1 = b.1) && decide (a.2 ≤ b.2))

/-- Insertion into a sorted list (helper for `sorted(...)`). -/
def insertSorted (x : String × String) : List (String × String) → List (String × String)
  | [] => [x]
  | y :: rest => if pairLe x y then x :: y :: rest else y :: insertSorted x rest

/-- Model of Python `sorted(context.items())` by insertion sort. -/
def sortPairs : List (String × String) → List (String × String)
  | [] => []
  | x :: rest => insertSorted x (sortPairs rest)

/-- Model of `CommandStore._make_id`: id is
`engine:cmd_head:hash8` or `engine:cmd_head:hash8@ctxhash6` when the context
is non-empty, where `cmd_head` is the first 10 characters of the first token
(`"cmd"` when the command has no token). -/
def makeId (digest : String → String) (engine command : String)
    (context : List (String × String)) : String :=
  let cmd := pyStrip command
  let cmdHead := match pyWords cmd.data with
    | w :: _ => String.mk (w.take 10)
    | [] => "cmd"
  let cmdHash := pyTake (digest cmd) 8
  if context.isEmpty then
    engine ++ ":" ++ cmdHead ++ ":" ++ cmdHash
  else
    let ctxStr := String.intercalate ","
      ((sortPairs context).map fun p => p.1 ++ "=" ++ p.2)
    let ctxHash := pyTake (digest ctxStr) 6
    engine ++ ":" ++ cmdHead ++ ":" ++ cmdHash ++ "@" ++ ctxHash

/-- The context-dependent command set
(`unified_session.py` line 21 / `session_manager.py` line 30). -/
def contextDependentCommands : List String :=
  ["bt", "task", "vm", "vtop", "ptov", "rd", "wr"]

/-- First token of a command for the relevant-context check:
`cmd.strip().split()[0] if cmd.strip() else ""`. -/
def commandWord (cmd : String) : String :=
  headWord (pyStrip cmd).data

/-- Model of `UnifiedSession._get_relevant_context`: the session context is
included only for commands whose first token is context-dependent. -/
def getRelevantContext (context : List (String × String)) (cmd : String) :
    List (String × String) :=
  if contextDependentCommands.contains (commandWord cmd) then context else []

/-- The command id actually used for a given (engine, command, context):
`_make_id` applied to the relevant context. -/
def computeCommandId (digest : String → String) (engine cmd : String)
    (context : List (String × String)) : String :=
  makeId digest engine cmd (getRelevantContext context cmd)

/-!
CommandStore model (`command_store.py`).  State holds the command map, the
files written into the workdir (name → text), the sidecar manifest (as the
structured record list that `manifest.json` serialises), and the running
filename index.  JSON (de)serialisation of the manifest is abstracted away:
`_save_manifest` stores the record list and `_load_manifest` consumes one.
-/

/-- Model of the `CommandResult` dataclass (`command_store.py` lines 14-27). -/
structure CommandResultM where
  command_id : String
  command : String
  engine : String
  output_file : Option String
  output_content : Option String
  total_lines : Nat
  timestamp : ℚ
  duration : ℚ
  cached : Bool
  is_error : Bool
deriving DecidableEq

/-- Model of one manifest record (`_save_manifest`, lines 306-325).  The
`command`/`engine`/`output_file` fields are optional because `_load_manifest`
guards against their absence in a hand-edited or stale manifest. -/
structure ManifestEntryM where
  command : Option String
  engine : Option String
  output_file : Option String
  total_lines : Nat
  timestamp : ℚ
  duration : ℚ
  is_error : Bool
deriving DecidableEq

/-- Model of the mutable state of a `CommandStore`. -/
structure StoreState where
  commands : List (String × CommandResultM)
  files : List (String × String)
  manifest : List (String × ManifestEntryM)
  index : Nat
deriving DecidableEq

/-- A store as built by `CommandStore.__init__` on an empty workdir. -/
def emptyStore : StoreState :=
  { commands := [], files := [], manifest := [], index := 0 }

/-- Configuration knobs read by `save` (`config.py`; defaults
`CRASH_MCP_TRUNCATE_LINES = 2000`, `COMMAND_SAVE_THRESHOLD_SECONDS = 2.0`). -/
structure ConfigM where
  outputTruncateLines : Nat
  commandSaveThresholdSeconds : ℚ
deriving DecidableEq

/-- The default configuration values. -/
def defaultConfig : ConfigM :=
  { outputTruncateLines := 2000, commandSaveThresholdSeconds := 2 }

/-- Model of `CommandStore._sanitize`: replace characters outside
`[a-zA-Z0-9_-]` by underscores and keep the first 20 characters. -/
def sanitize (s : String) : String :=
  ⟨(s.data.map fun c => if c.isAlphanum || c = '_' || c = '-' then c else '_').take 20⟩

/-- Python `f"{n:04d}"`: decimal rendering left-padded with zeros to width 4. -/
def pad4 (n : Nat) : String :=
  let s := toString n
  if s.length ≥ 4 then s else ⟨List.replicate (4 - s.length) '0'⟩ ++ s

/-- Model of `CommandStore._generate_path` given the already-incremented
index: `f"{index:04d}_{engine}_{cmd_sanitized}.txt"` where `cmd_sanitized`
is the sanitized first token of the command (or `"cmd"`). -/
def genPathName (idx : Nat) (engine command : String) : String :=
  let cmdSanitized := sanitize (match firstTokenOpt command with
    | some w => w
    | none => "cmd")
  pad4 idx ++ "_" ++ engine ++ "_" ++ cmdSanitized ++ ".txt"

/-- Model of `CommandStore._save_manifest`: one record per file-backed
result (memory-only results are never persisted). -/
def buildManifest (commands : List (String × CommandResultM)) :
    List (String × ManifestEntryM) :=
  (commands.filter fun p => p.2.output_file.isSome).map fun p =>
    (p.1,
      { command := some p.2.command
        engine := some p.2.engine
        output_file := p.2.output_file
        total_lines := p.2.total_lines
        timestamp := p.2.timestamp
        duration := p.2.duration
        is_error := p.2.is_error })

/-- The save criterion of `CommandStore.save` (lines 57-63):
`force_save or total_lines > OUTPUT_TRUNCATE_LINES or duration > COMMAND_SAVE_THRESHOLD_SECONDS`. -/
def shouldSaveB (cfg : ConfigM) (totalLines : Nat) (duration : ℚ) (forceSave : Bool) : Bool :=
  forceSave || decide (totalLines > cfg.outputTruncateLines) ||
    decide (duration > cfg.commandSaveThresholdSeconds)

/-- Model of `CommandStore.save` (`command_store.py` lines 41-138).  File
writes always succeed in the model, so the `IOError` fallback branches are
dead.  Returns the updated state and the stored `CommandResult`. -/
def save (digest : String → String) (cfg : ConfigM) (s : StoreState)
    (engine command output : String) (context : List (String × String))
    (is_error : Bool) (duration : ℚ) (force_save : Bool) (now : ℚ) :
    StoreState × CommandResultM :=
  let command_id := makeId digest engine command context
  let total_lines := (pySplitlines output).length
  let should_save := shouldSaveB cfg total_lines duration force_save
  match lookupA s.commands command_id with
  | some existing =>
    if should_save then
      -- ensure a file path, write the new output, clear the memory blob
      let (path, idx') := match existing.output_file with
        | some p => (p, s.index)
        | none => (genPathName (s.index + 1) engine command, s.index + 1)
      let r : CommandResultM :=
        { existing with
            output_file := some path, output_content := none,
            total_lines := total_lines, timestamp := now,
            duration := duration, cached := false, is_error := is_error }
      let commands' := upsertA s.commands command_id r
      -- output_file is set, so _save_manifest runs
      ({ commands := commands', files := upsertA s.files path output,
         manifest := buildManifest commands', index := idx' }, r)
    else
      -- store in memory; keep an existing file if it is still on disk
      let newFile : Option String := match existing.output_file with
        | some p => if (lookupA s.files p).isSome then some p else none
        | none => none
      let r : CommandResultM :=
        { existing with
            output_file := newFile, output_content := some output,
            total_lines := total_lines, timestamp := now,
            duration := duration, cached := false, is_error := is_error }
      let commands' := upsertA s.commands command_id r
      (if newFile.isSome then
        { s with commands := commands', manifest := buildManifest commands' }
       else { s with commands := commands' }, r)
  | none =>
    if should_save then
      let path := genPathName (s.index + 1) engine command
      let r : CommandResultM :=
        { command_id := command_id, command := command, engine := engine,
          output_file := some path, output_content := none,
          total_lines := total_lines, timestamp := now, duration := duration,
          cached := false, is_error := is_error }
      let commands' := upsertA s.commands command_id r
      ({ commands := commands', files := upsertA s.files path output,
         manifest := buildManifest commands', index := s.index + 1 }, r)
    else
      let r : CommandResultM :=
        { command_id := command_id, command := command, engine := engine,
          output_file := none, output_content := some output,
          total_lines := total_lines, timestamp := now, duration := duration,
          cached := false, is_error := is_error }
      ({ s with commands := upsertA s.commands command_id r }, r)

/-- Model of `CommandStore.get_cached` (lines 147-156): return the stored
result only when present and not error-flagged, setting its `cached` flag in
place (hence the updated state). -/
def get_cached (digest : String → String) (s : StoreState)
    (engine command : String) (context : List (String × String)) :
    Option CommandResultM × StoreState :=
  let command_id := makeId digest engine command context
  match lookupA s.commands command_id with
  | some r =>
    if r.is_error then (none, s)
    else
      let r' := { r with cached := true }
      (some r', { s with commands := upsertA s.commands command_id r' })
  | none => (none, s)

/-- The content read path shared by `get_lines` and `search` (lines 171-180
and 197-206): prefer the output file when it exists, fall back to the
in-memory blob, and fail when neither is available. -/
def readResultText (s : StoreState) (r : CommandResultM) : Except String String :=
  match r.output_file with
  | some p =>
    match lookupA s.files p with
    | some txt => .ok txt
    | none =>
      match r.output_content with
      | some c => .ok c
      | none => .error "No content available for this command output"
  | none =>
    match r.output_content with
    | some c => .ok c
    | none => .error "No content available for this command output"

/-- Model of `CommandStore.get_lines` (lines 162-185): returns
(text, returned_count, total_lines, has_more); a `ValueError` is modelled as
`Except.error`. -/
def get_lines (s : StoreState) (command_id : String) (offset limit : Nat) :
    Except String (String × Nat × Nat × Bool) :=
  match lookupA s.commands command_id with
  | none => .error ("Command not found: " ++ command_id)
  | some r =>
    match readResultText s r with
    | .error e => .error e
    | .ok txt =>
      let lines := pySplitlines txt
      let total := lines.length
      let selected := (lines.drop offset).take limit
      .ok (joinLines selected, selected.length, total, decide (offset + limit < total))

/-- One search hit of `CommandStore.search` (lines 216-231): the synthetic
warning entry uses line number `-1`, hence `Int`. -/
structure SearchMatch where
  line_number : Int
  context_before : List String
  line : String
  context_after : List String
deriving DecidableEq

/-- The synthetic warning entry appended when the match cap is reached
(lines 226-231, with `limit = 20` interpolated). -/
def warningMatch : SearchMatch :=
  { line_number := -1
    context_before := []
    line := "[SYSTEM WARNING] Search result truncated. Found >20 matches. Please refine your query."
    context_after := [] }

/-- One regular match entry (lines 218-223): 1-based line number,
`lines[max(0, i-context_lines):i]` before and `lines[i+1:i+1+context_lines]`
after. -/
def mkSearchMatch (allLines : List String) (ctxN i : Nat) (l : String) : SearchMatch :=
  { line_number := (i : Int) + 1
    context_before := (allLines.drop (i - ctxN)).take (i - (i - ctxN))
    line := l
    context_after := (allLines.drop (i + 1)).take ctxN }

/-- The scan loop of `CommandStore.search` (lines 213-232): walk the lines
with their indices, collecting matches; once `len(matches) >= cap` after an
append, add the warning entry and stop.  The source hard-codes `cap = 20`. -/
def searchGo (p : String → Bool) (allLines : List String) (ctxN cap : Nat) :
    Nat → List String → Nat → List SearchMatch
  | _, [], _ => []
  | i, l :: rest, cnt =>
    if p l then
      let entry := mkSearchMatch allLines ctxN i l
      if cnt + 1 ≥ cap then [entry, warningMatch]
      else entry :: searchGo p allLines ctxN cap (i + 1) rest (cnt + 1)
    else searchGo p allLines ctxN cap (i + 1) rest cnt

/-- Model of `CommandStore.search` (lines 187-235).  `re.compile(query,
re.IGNORECASE)` is an external library call, modelled by its outcome
`compiled`: either a compile error message or a line-match predicate
(`pattern.search(line)`).  A malformed pattern produces
`ValueError(f"Invalid regex pattern: {e}")`, modelled as `Except.error`. -/
def search (s : StoreState) (command_id : String)
    (compiled : Except String (String → Bool)) (context_lines : Nat) :
    Except String (List SearchMatch) :=
  match lookupA s.commands command_id with
  | none => .error ("Command not found: " ++ command_id)
  | some r =>
    match readResultText s r with
    | .error e => .error e
    | .ok txt =>
      match compiled with
      | .error e => .error ("Invalid regex pattern: " ++ e)
      | .ok p =>
        let lines := pySplitlines txt
        .ok (searchGo p lines context_lines 20 0 lines 0)

/-- Python truthiness of an optional string (`info.get(...)` used in a
boolean context): false for absent and for the empty string. -/
def falsyStr : Option String → Bool
  | none => true
  | some s => s = ""

/-- Index recovery of `_load_manifest` (lines 293-300):
`int(output_file.name.split('_')[0])`, skipped when unparsable. -/
def parseNameIndex (name : String) : Option Nat :=
  match (name.splitOn "_").head? with
  | some piece => piece.toNat?
  | none => none

/-- One iteration of the `_load_manifest` loop (lines 263-300): skip records
whose file is missing from disk or whose command/engine fields are falsy;
otherwise insert a `CommandResult` with no in-memory content and advance the
filename index past the recovered file's number. -/
def loadManifestEntry (s : StoreState) (cid : String) (info : ManifestEntryM) :
    StoreState :=
  let output_file : Option String := if falsyStr info.output_file then none else info.output_file
  match output_file with
  | some p =>
    if (lookupA s.files p).isNone then s  -- file missing: skip
    else if falsyStr info.command || falsyStr info.engine then s
    else
      let r : CommandResultM :=
        { command_id := cid
          command := info.command.getD ""
          engine := info.engine.getD ""
          output_file := some p
          output_content := none
          total_lines := info.total_lines
          timestamp := info.timestamp
          duration := info.duration
          cached := false
          is_error := info.is_error }
      let idx := match parseNameIndex p with
        | some n => max s.index n
        | none => s.index
      { s with commands := upsertA s.commands cid r, index := idx }
  | none =>
    if falsyStr info.command || falsyStr info.engine then s
    else
      let r : CommandResultM :=
        { command_id := cid
          command := info.command.getD ""
          engine := info.engine.getD ""
          output_file := none
          output_content := none
          total_lines := info.total_lines
          timestamp := info.timestamp
          duration := info.duration
          cached := false
          is_error := info.is_error }
      { s with commands := upsertA s.commands cid r }

/-- Model of `CommandStore._load_manifest` applied to a list of manifest
records (the JSON layer is abstracted to the record list). -/
def loadManifest (s : StoreState) (entries : List (String × ManifestEntryM)) :
    StoreState :=
  entries.foldl (fun acc p => loadManifestEntry acc p.1 p.2) s

/-!
Operation sequences over a `CommandStore`, used to state reachability
invariants.
-/

/-- The store operations quantified over by the storage-field invariant. -/
inductive StoreOp where
  | saveOp (engine command output : String) (context : List (String × String))
      (is_error : Bool) (duration : ℚ) (force_save : Bool) (now : ℚ)
  | getCachedOp (engine command : String) (context : List (String × String))
  | loadManifestOp (entries : List (String × ManifestEntryM))

/-- Apply one store operation. -/
def applyOp (digest : String → String) (cfg : ConfigM) (s : StoreState) :
    StoreOp → StoreState
  | .saveOp engine command output context is_error duration force_save now =>
    (save digest cfg s engine command output context is_error duration force_save now).1
  | .getCachedOp engine command context =>
    (get_cached digest s engine command context).2
  | .loadManifestOp entries => loadManifest s entries

/-- Does this save hit an id whose current entry is file-backed with its file
still on disk, while itself falling below every persistence criterion?  This
is exactly the case in which `save` keeps the stale file next to the fresh
in-memory blob. -/
def staleFileSave (digest : String → String) (cfg : ConfigM) (s : StoreState)
    (engine command output : String) (context : List (String × String))
    (duration : ℚ) (force_save : Bool) : Bool :=
  let command_id := makeId digest engine command context
  let total_lines := (pySplitlines output).length
  !shouldSaveB cfg total_lines duration force_save &&
    (match lookupA s.commands command_id with
     | some existing =>
       match existing.output_file with
       | some p => (lookupA s.files p).isSome
       | none => false
     | none => false)

/-- Run a sequence of store operations, failing (`none`) as soon as a save
falls in the stale-file case excluded by the amended C2 invariant. -/
def runChecked (digest : String → String) (cfg : ConfigM) (s : StoreState) :
    List StoreOp → Option StoreState
  | [] => some s
  | op :: rest =>
    match op with
    | .saveOp engine command output context _ duration force_save _ =>
      if staleFileSave digest cfg s engine command output context duration force_save then
        none
      else runChecked digest cfg (applyOp digest cfg s op) rest
    | _ => runChecked digest cfg (applyOp digest cfg s op) rest

/-!
SessionManager model (`session_manager.py`).  `uuid.uuid4()` and the vmcore
MD5 fingerprint are external inputs, passed explicitly to `get_or_create`.
-/

/-- Model of the `SessionInfo` dataclass (`session_manager.py` lines 14-23).
The workdir is derived from the fingerprint (`base_workdir / vmcore_md5`);
it is modelled by the fingerprint string itself. -/
structure SessionInfoM where
  session_id : String
  vmcore_md5 : String
  vmcore_path : String
  vmlinux_path : String
  workdir : String
  context : List (String × String)
  ref_count : Int
deriving DecidableEq

/-- Model of the mutable state of a `SessionManager`. -/
structure ManagerState where
  sessions : List (String × SessionInfoM)
  vmcore_map : List (String × String)
deriving DecidableEq

/-- A manager as built by `SessionManager.__init__`. -/
def emptyManager : ManagerState :=
  { sessions := [], vmcore_map := [] }

/-- Model of `SessionManager.get_or_create` (lines 44-72); `vmcoreMd5` is
the fingerprint `_compute_md5` would return and `freshSid` the next
`uuid.uuid4()`.  Returns (state, session_id, info, is_new). -/
def get_or_create (st : ManagerState) (vmcoreMd5 freshSid : String)
    (vmcorePath vmlinuxPath : String) :
    ManagerState × String × SessionInfoM × Bool :=
  match lookupA st.vmcore_map vmcoreMd5 with
  | some sid =>
    match lookupA st.sessions sid with
    | some info => (st, sid, info, false)
    | none =>
      -- unreachable when the two maps are in sync (KeyError in Python);
      -- modelled as returning a fresh record without registering it
      (st, sid, { session_id := sid, vmcore_md5 := vmcoreMd5,
                  vmcore_path := vmcorePath, vmlinux_path := vmlinuxPath,
                  workdir := vmcoreMd5, context := [], ref_count := 0 }, false)
  | none =>
    let info : SessionInfoM :=
      { session_id := freshSid, vmcore_md5 := vmcoreMd5,
        vmcore_path := vmcorePath, vmlinux_path := vmlinuxPath,
        workdir := vmcoreMd5, context := [], ref_count := 0 }
    ({ sessions := upsertA st.sessions freshSid info,
       vmcore_map := upsertA st.vmcore_map vmcoreMd5 freshSid },
     freshSid, info, true)

/-- Model of `SessionManager.acquire` (lines 74-80): increment the reference
count when the session exists; report whether it was found. -/
def acquire (st : ManagerState) (session_id : String) : ManagerState × Bool :=
  match lookupA st.sessions session_id with
  | some info =>
    ({ st with sessions :=
         upsertA st.sessions session_id { info with ref_count := info.ref_count + 1 } },
     true)
  | none => (st, false)

/-- Model of `SessionManager.release` (lines 82-89): `-1` for an unknown id,
otherwise decrement unconditionally and return the new count. -/
def release (st : ManagerState) (session_id : String) : ManagerState × Int :=
  match lookupA st.sessions session_id with
  | none => (st, -1)
  | some info =>
    let count := info.ref_count - 1
    ({ st with sessions :=
         upsertA st.sessions session_id { info with ref_count := count } },
     count)

/-!
BaseSession.execute_command model (`base_session.py` lines 156-239).

The pexpect interaction is modelled by the outcome of the
send-and-wait-for-prompt phase: the single `expect([PROMPT, TIMEOUT])` round
trip either matches the prompt, times out (pexpect returns index 1 because
`TIMEOUT` is in the pattern list — both branches of the loop body `break`),
or hits end-of-stream.  An EOF raised while draining stale output (lines
173-181) behaves like the main-loop EOF and is covered by the same event.
-/

/-- Outcome of the expect phase of one command round trip. -/
inductive PexpectEvent where
  | promptMatch (before : String)
  | timeoutEvt (before : String)
  | eofEvt (before : String)

/-- Result of `execute_command`: a returned string, the quit sentinel, or a
raised error (`RuntimeError` for a dead/not-started session and for an
unexpected end-of-stream). -/
inductive ExecResult where
  | ok (output : String)
  | closedSentinel
  | errNotActive
  | errClosed (msg : String)
deriving DecidableEq

/-- The recognized quit tokens (line 166). -/
def quitTokens : List String :=
  ["q", "quit", "exit"]

/-- Output cleaning (lines 207-215): drop the first line when it contains the
echoed command, join, strip, then remove ANSI escape sequences. -/
def cleanOutput (command raw : String) : String :=
  let lines := pySplitlines raw
  let lines := match lines with
    | l0 :: rest => if pyInStr (pyStrip command) l0 then rest else l0 :: rest
    | [] => []
  ansiStrip (pyStrip (joinLines lines))

/-- Model of `BaseSession.execute_command` for one command round trip, using
the base-class truncation policy.  Returns the call's result together with
the session's liveness afterwards (`is_active`): a quit command closes the
session; an end-of-stream leaves the child dead; a prompt match or a timeout
leaves the session usable. -/
def executeCommandStep (active : Bool) (command : String) (truncate : Bool)
    (evt : PexpectEvent) : ExecResult × Bool :=
  if !active then (.errNotActive, active)
  else if quitTokens.contains (pyStrip command) then (.closedSentinel, false)
  else
    match evt with
    | .eofEvt _ => (.errClosed "Session closed unexpectedly", false)
    | .promptMatch before =>
      let out := cleanOutput command before
      (.ok (if truncate then baseSmartTruncate out command else out), true)
    | .timeoutEvt before =>
      -- index 1: pexpect returned TIMEOUT as a match; the loop logs a
      -- warning and breaks, and the partial output is returned normally
      let out := cleanOutput command before
      (.ok (if truncate then baseSmartTruncate out command else out), true)

/-!
Shared helper lemmas.
-/

theorem String_length_mk (l : List Char) : (String.mk l).length = l.length := rfl

theorem pyTake_length (s : String) (n : Nat) : (pyTake s n).length = min n s.length := by
  show (s.data.take n).length = min n s.data.length
  exact List.length_take n s.data

theorem pyLastN_length (s : String) (n : Nat) (h : n ≤ s.length) :
    (pyLastN s n).length = n := by
  show (s.data.drop (s.data.length - n)).length = n
  rw [List.length_drop]
  have hs : s.length = s.data.length := rfl
  omega

/-- A digest stand-in used by the concrete witnesses and counterexamples
(theorems about `makeId` and `save` hold for an arbitrary digest). -/
def demoDigest : String → String := fun s => s

/-!
Claim C5.
-/

/-- C5: for fixed (engine, command, context) the computed command id is the
same on every call (it is a pure function of its inputs, for any digest
function), and changing the context never changes the id unless the
command's first token is in the context-dependent set
{bt, task, vm, vtop, ptov, rd, wr}: for any other command the id is
computed from the empty context. -/
theorem c5_command_id_deterministic_and_context_scoped :
    (∀ (digest : String → String) (engine cmd : String)
        (context : List (String × String)),
      computeCommandId digest engine cmd context
        = computeCommandId digest engine cmd context) ∧
    (∀ (digest : String → String) (engine cmd : String)
        (ctx₁ ctx₂ : List (String × String)),
      contextDependentCommands.contains (commandWord cmd) = false →
      computeCommandId digest engine cmd ctx₁
        = computeCommandId digest engine cmd ctx₂) := by
  constructor
  · intro digest engine cmd context
    rfl
  · intro digest engine cmd ctx₁ ctx₂ h
    unfold computeCommandId getRelevantContext
    rw [h]
    rfl

/-- Witness for C5: `sys` is not context-dependent, so its id is the same
with and without a pid context. -/
theorem c5_witness :
    contextDependentCommands.contains (commandWord "sys") = false ∧
    computeCommandId demoDigest "crash" "sys" [("pid", "1")]
      = computeCommandId demoDigest "crash" "sys" [] :=
  ⟨by decide,
   c5_command_id_deterministic_and_context_scoped.2 demoDigest "crash" "sys"
     [("pid", "1")] [] (by decide)⟩

/-!
Claim C8.
-/

/-- C8: routing sends `"sys"` to the crash engine, `"x = 1"` to the drgn
engine, and `"crash: x = 1"` to the crash engine; an explicit engine prefix
always wins over the heuristic — any command whose stripped text starts with
`"crash:"`, `"drgn:"` or `"pykdump:"` is dispatched to that engine with the
prefix stripped; and whenever the command carries no explicit engine prefix
and its first token is in the crash vocabulary, it routes to the crash
engine regardless of code-like punctuation (the vocabulary check precedes
the punctuation check). -/
theorem c8_routing :
    routeCommand "sys" = (.crashEngine, "sys") ∧
    routeCommand "x = 1" = (.drgnEngine, "x = 1") ∧
    routeCommand "crash: x = 1" = (.crashEngine, "x = 1") ∧
    (∀ command : String,
      pyStartsWith (pyStrip command) "crash:" = true →
      routeCommand command
        = (.crashEngine, pyStrip (pyDrop (pyStrip command) 6))) ∧
    (∀ command : String,
      pyStartsWith (pyStrip command) "drgn:" = true →
      routeCommand command
        = (.drgnEngine, pyStrip (pyDrop (pyStrip command) 5))) ∧
    (∀ command : String,
      pyStartsWith (pyStrip command) "pykdump:" = true →
      routeCommand command
        = (.pykdumpEngine, pyStrip (pyDrop (pyStrip command) 8))) ∧
    (∀ command : String,
      pyStartsWith (pyStrip command) "drgn:" = false →
      pyStartsWith (pyStrip command) "crash:" = false →
      pyStartsWith (pyStrip command) "pykdump:" = false →
      crashCmds.contains (headWord (pyStrip command).data) = true →
      routeCommand command = (.crashEngine, pyStrip command)) := by
  refine ⟨by decide, by decide, by decide, ?_, ?_, ?_, ?_⟩
  · intro command h
    have hpre : "crash:".data <+: (pyStrip command).data :=
      List.isPrefixOf_iff_prefix.mp h
    obtain ⟨t, ht⟩ := hpre
    have hdr : pyStartsWith (pyStrip command) "drgn:" = false := by
      simp only [pyStartsWith]
      rw [← ht]
      rfl
    unfold routeCommand routeCore
    simp only [hdr, h]
    rfl
  · intro command h
    unfold routeCommand routeCore
    simp only [h]
    rfl
  · intro command h
    have hpre : "pykdump:".data <+: (pyStrip command).data :=
      List.isPrefixOf_iff_prefix.mp h
    obtain ⟨t, ht⟩ := hpre
    have hdr : pyStartsWith (pyStrip command) "drgn:" = false := by
      simp only [pyStartsWith]
      rw [← ht]
      rfl
    have hcr : pyStartsWith (pyStrip command) "crash:" = false := by
      simp only [pyStartsWith]
      rw [← ht]
      rfl
    unfold routeCommand routeCore
    simp only [hdr, hcr, h]
    rfl
  · intro command h1 h2 h3 h4
    unfold routeCommand routeCore
    simp only [h1, h2, h3, h4]
    rfl

/-- Witness for C8's universally quantified parts: one concrete command per
explicit engine prefix (each routed to its engine with the prefix stripped)
and a vocabulary command containing `=`. -/
theorem c8_witness :
    routeCommand "crash: bt -a" = (.crashEngine, "bt -a") ∧
    routeCommand "drgn: prog" = (.drgnEngine, "prog") ∧
    routeCommand "pykdump: print(1)" = (.pykdumpEngine, "print(1)") ∧
    routeCommand "set x = 1" = (.crashEngine, "set x = 1") := by
  refine ⟨?_, ?_, ?_, ?_⟩
  · have := c8_routing.2.2.2.1 "crash: bt -a" (by decide)
    simpa using this
  · have := c8_routing.2.2.2.2.1 "drgn: prog" (by decide)
    simpa using this
  · have := c8_routing.2.2.2.2.2.1 "pykdump: print(1)" (by decide)
    simpa using this
  · have := c8_routing.2.2.2.2.2.2 "set x = 1" (by decide) (by decide) (by decide)
      (by decide)
    simpa using this

/-!
Claim C6.  The claim quantifies over every output text and command.  It fails
as stated: `CrashSession._smart_truncate` evaluates
`command.strip().split()[0]` on over-limit output, which raises `IndexError`
when the command is blank, so for such inputs nothing is returned at all.
For commands that do have a first token the claimed bounds hold.
-/

/-- A 16385-character output, one character past the truncation limit. -/
def overLimitOutput : String :=
  String.mk (List.replicate 16385 'a')

/-- Counterexample to C6 as stated: with a blank command and over-limit
output, the crash-session variant evaluates `''.split()[0]` and raises
`IndexError` (modelled as `none`) instead of returning a truncated string,
so the claimed bound on the returned length has no returned value to hold
of. -/
theorem c6_counterexample :
    overLimitOutput.length > 16384 ∧
    crashSmartTruncate overLimitOutput "" = none := by
  have hlen : overLimitOutput.length = 16385 := by
    show (List.replicate 16385 'a').length = 16385
    simp only [List.length_replicate]
  constructor
  · omega
  · unfold crashSmartTruncate
    rw [hlen]
    rfl

/-- C6 amended: truncation at or under the limit returns the text unchanged
(both variants, hence idempotent); over the limit the default strategy
returns exactly limit-plus-marker many characters (head 4096, marker, tail
12288); the crash variant delegates to the default strategy for non-`log`
commands with a first token, and for `log` keeps exactly the last 16384
characters of the input after a fixed header.  Blank commands are excluded
for the crash variant's over-limit case, where the source raises
`IndexError`. -/
theorem c6_smart_truncate :
    (∀ output command : String, output.length ≤ 16384 →
      baseSmartTruncate output command = output ∧
      crashSmartTruncate output command = some output) ∧
    (∀ output command : String, output.length > 16384 →
      (baseSmartTruncate output command).length
        = 16384 + (truncMarker (output.length - 16384)).length) ∧
    (∀ output command w : String, output.length > 16384 →
      firstTokenOpt command = some w → w ≠ "log" →
      crashSmartTruncate output command = some (baseSmartTruncate output command)) ∧
    (∀ output command : String, output.length > 16384 →
      firstTokenOpt command = some "log" →
      crashSmartTruncate output command
        = some (logTruncHeader ++ String.mk (output.data.drop (output.length - 16384))) ∧
      (pyLastN output 16384).length = 16384) := by
  refine ⟨?_, ?_, ?_, ?_⟩
  · intro output command h
    constructor
    · unfold baseSmartTruncate
      rw [if_pos h]
    · unfold crashSmartTruncate
      rw [if_pos h]
  · intro output command h
    unfold baseSmartTruncate
    rw [if_neg (by omega)]
    rw [String.length_append, String.length_append]
    rw [pyTake_length, pyLastN_length output 12288 (by omega)]
    have : min 4096 output.length = 4096 := by omega
    rw [this]
    omega
  · intro output command w h hw hne
    unfold crashSmartTruncate
    rw [if_neg (by omega), hw]
    show (if w = "log" then some (logTruncHeader ++ pyLastN output 16384)
        else some (baseSmartTruncate output command))
      = some (baseSmartTruncate output command)
    rw [if_neg hne]
  · intro output command h hw
    constructor
    · unfold crashSmartTruncate
      rw [if_neg (by omega), hw]
      rfl
    · exact pyLastN_length output 16384 (by omega)

/-- Witness for C6 amended: a short text is unchanged, and concrete
over-limit outputs satisfy the head+tail length bound and the `log`
tail-only equations. -/
theorem c6_witness :
    (baseSmartTruncate "hello" "ps" = "hello" ∧
      crashSmartTruncate "hello" "ps" = some "hello") ∧
    (baseSmartTruncate overLimitOutput "ps").length
      = 16384 + (truncMarker (overLimitOutput.length - 16384)).length ∧
    crashSmartTruncate overLimitOutput "log -t"
      = some (logTruncHeader ++
          String.mk (overLimitOutput.data.drop (overLimitOutput.length - 16384))) := by
  have hlen : overLimitOutput.length = 16385 := by
    show (List.replicate 16385 'a').length = 16385
    simp only [List.length_replicate]
  refine ⟨c6_smart_truncate.1 "hello" "ps" (by decide), ?_, ?_⟩
  · exact c6_smart_truncate.2.1 overLimitOutput "ps" (by omega)
  · exact (c6_smart_truncate.2.2.2 overLimitOutput "log -t" (by omega) (by decide)).1

/-!
Claim C7.
-/

/-- A default `CommandResult` record used only to destructure optional
lookups in concrete witnesses. -/
def dummyResult : CommandResultM :=
  { command_id := "", command := "", engine := "", output_file := none,
    output_content := none, total_lines := 0, timestamp := 0, duration := 0,
    cached := false, is_error := false }

theorem getLast?_cons_of_getLast? {α : Type} (a : α) (l : List α) (x : α)
    (h : l.getLast? = some x) : (a :: l).getLast? = some x := by
  cases l with
  | nil => simp at h
  | cons b t =>
    rw [List.getLast?_cons_cons]
    exact h

/-- Cap behaviour of the `search` scan loop: as long as fewer than `cap`
matches have been collected and at least `cap - cnt` matching lines remain,
the loop produces exactly `cap - cnt + 1` entries and ends with the
synthetic warning. -/
theorem searchGo_cap (p : String → Bool) (allLines : List String) (ctxN cap : Nat) :
    ∀ (rest : List String) (i cnt : Nat), cnt < cap →
      cap - cnt ≤ rest.countP p →
      (searchGo p allLines ctxN cap i rest cnt).length = cap - cnt + 1 ∧
      (searchGo p allLines ctxN cap i rest cnt).getLast? = some warningMatch := by
  intro rest
  induction rest with
  | nil =>
    intro i cnt hlt hcnt
    simp only [List.countP_nil] at hcnt
    omega
  | cons l rest ih =>
    intro i cnt hlt hcnt
    by_cases hp : p l = true
    · have hc : (l :: rest).countP p = rest.countP p + 1 := by
        rw [List.countP_cons, hp]
        simp
      rw [hc] at hcnt
      unfold searchGo
      rw [if_pos hp]
      by_cases hfull : cnt + 1 ≥ cap
      · rw [if_pos hfull]
        refine ⟨?_, rfl⟩
        simp only [List.length_cons, List.length_nil]
        omega
      · rw [if_neg hfull]
        have hrec := ih (i + 1) (cnt + 1) (by omega) (by omega)
        refine ⟨?_, ?_⟩
        · simp only [List.length_cons, hrec.1]
          omega
        · exact getLast?_cons_of_getLast? _ _ _ hrec.2
    · have hp' : p l = false := by
        revert hp
        cases p l <;> simp
      have hc : (l :: rest).countP p = rest.countP p := by
        rw [List.countP_cons, hp']
        simp
      rw [hc] at hcnt
      unfold searchGo
      rw [if_neg hp]
      exact ih (i + 1) cnt hlt hcnt

/-- C7: for every stored command id with readable content, a search whose
pattern matches more than the 20-match cap returns exactly 21 entries with
the synthetic warning last, and a malformed pattern (a regex compile error)
makes `search` fail with the regex error instead of returning matches. -/
theorem c7_search_cap_and_regex_error :
    (∀ (s : StoreState) (command_id : String) (r : CommandResultM)
        (txt : String) (p : String → Bool) (context_lines : Nat),
      lookupA s.commands command_id = some r →
      readResultText s r = .ok txt →
      20 < (pySplitlines txt).countP p →
      ∃ ms, search s command_id (.ok p) context_lines = .ok ms ∧
        ms.length = 21 ∧ ms.getLast? = some warningMatch) ∧
    (∀ (s : StoreState) (command_id : String) (r : CommandResultM)
        (txt e : String) (context_lines : Nat),
      lookupA s.commands command_id = some r →
      readResultText s r = .ok txt →
      search s command_id (.error e) context_lines
        = .error ("Invalid regex pattern: " ++ e)) := by
  constructor
  · intro s command_id r txt p context_lines hlook hread hcount
    refine ⟨searchGo p (pySplitlines txt) context_lines 20 0 (pySplitlines txt) 0,
      ?_, ?_, ?_⟩
    · unfold search
      rw [hlook]
      dsimp only
      rw [hread]
    · have := (searchGo_cap p (pySplitlines txt) context_lines 20
        (pySplitlines txt) 0 0 (by omega) (by omega)).1
      omega
    · exact (searchGo_cap p (pySplitlines txt) context_lines 20
        (pySplitlines txt) 0 0 (by omega) (by omega)).2
  · intro s command_id r txt e context_lines hlook hread
    unfold search
    rw [hlook]
    dsimp only
    rw [hread]

/-- A store holding 30 lines that all match the witness query. -/
def searchDemoStore : StoreState :=
  (save demoDigest defaultConfig emptyStore "crash" "log"
    (joinLines ((List.range 30).map fun i => "match " ++ toString i))
    [] false 0 false 0).1

/-- The id of the output stored in `searchDemoStore`. -/
def searchDemoId : String :=
  makeId demoDigest "crash" "log" []

/-- The stored entry of `searchDemoStore`. -/
def searchDemoEntry : CommandResultM :=
  (lookupA searchDemoStore.commands searchDemoId).getD dummyResult

/-- The stored text of `searchDemoStore`. -/
def searchDemoText : String :=
  (readResultText searchDemoStore searchDemoEntry).toOption.getD ""

/-- The result list of the witness query. -/
def searchDemoResult : List SearchMatch :=
  (search searchDemoStore searchDemoId (.ok fun l => pyStartsWith l "match")
    3).toOption.getD []

/-- Witness for C7: the demo query matches 30 > 20 lines, so search returns
21 entries ending in the warning, and a compile error surfaces as the regex
error. -/
theorem c7_witness :
    search searchDemoStore searchDemoId (.ok fun l => pyStartsWith l "match") 3
      = .ok searchDemoResult ∧
    searchDemoResult.length = 21 ∧
    searchDemoResult.getLast? = some warningMatch ∧
    search searchDemoStore searchDemoId (.error "bad pattern") 3
      = .error ("Invalid regex pattern: " ++ "bad pattern") := by
  obtain ⟨ms, h1, h2, h3⟩ :=
    c7_search_cap_and_regex_error.1 searchDemoStore searchDemoId searchDemoEntry
      searchDemoText (fun l => pyStartsWith l "match") 3 (by rfl) (by rfl)
      (by decide)
  have hms : searchDemoResult = ms := by
    unfold searchDemoResult
    rw [h1]
    rfl
  exact ⟨by rw [hms]; exact h1, by rw [hms]; exact h2, by rw [hms]; exact h3,
    c7_search_cap_and_regex_error.2 searchDemoStore searchDemoId searchDemoEntry
      searchDemoText "bad pattern" 3 (by rfl) (by rfl)⟩

/-!
Claim C10.
-/

/-- C10: for every stored command id with readable content of `total` lines,
`get_lines` with any offset at or past the end and any limit succeeds and
returns the empty string, a returned count of 0, the unchanged total, and
`has_more = false`.  (Offsets and limits are modelled as naturals, matching
the claim's restriction to non-negative arguments.) -/
theorem c10_get_lines_past_end :
    ∀ (s : StoreState) (command_id : String) (r : CommandResultM)
      (txt : String) (offset limit : Nat),
      lookupA s.commands command_id = some r →
      readResultText s r = .ok txt →
      (pySplitlines txt).length ≤ offset →
      get_lines s command_id offset limit
        = .ok ("", 0, (pySplitlines txt).length, false) := by
  intro s command_id r txt offset limit hlook hread hoff
  unfold get_lines
  rw [hlook]
  dsimp only
  rw [hread]
  dsimp only
  have hdrop : (pySplitlines txt).drop offset = [] :=
    List.drop_eq_nil_of_le hoff
  rw [hdrop, List.take_nil]
  have hmore : decide (offset + limit < (pySplitlines txt).length) = false := by
    rw [decide_eq_false_iff_not]
    omega
  rw [hmore]
  rfl

/-- A store holding a two-line output, used to witness C10. -/
def paginationDemoStore : StoreState :=
  (save demoDigest defaultConfig emptyStore "crash" "ps" "A\nB" [] false 0 false 0).1

/-- The id of the output stored in `paginationDemoStore`. -/
def paginationDemoId : String :=
  makeId demoDigest "crash" "ps" []

/-- The stored entry of `paginationDemoStore`. -/
def paginationDemoEntry : CommandResultM :=
  (lookupA paginationDemoStore.commands paginationDemoId).getD dummyResult

/-- Witness for C10: reading past the end of the two-line output returns the
empty page with the total and no further pages. -/
theorem c10_witness :
    get_lines paginationDemoStore paginationDemoId 5 3 = .ok ("", 0, 2, false) :=
  c10_get_lines_past_end paginationDemoStore paginationDemoId
    paginationDemoEntry "A\nB" 5 3 (by rfl) (by rfl) (by decide)

/-!
Claim C3.  The claim fails as stated: `release` decrements unconditionally
whenever the session id is registered, so a release of a session whose
reference count is already 0 stores -1 — a negative stored count — and
returns -1, which is numerically the not-found sentinel but is not produced
by the not-found branch.
-/

/-- Unfolding lemma for `acquire` on a registered session. -/
theorem acquire_found (st : ManagerState) (sid : String) (info : SessionInfoM)
    (h : lookupA st.sessions sid = some info) :
    acquire st sid
      = Prod.mk
          { st with sessions :=
              upsertA st.sessions sid { info with ref_count := info.ref_count + 1 } }
          true := by
  unfold acquire
  rw [h]

/-- Unfolding lemma for `release` on a registered session. -/
theorem release_found (st : ManagerState) (sid : String) (info : SessionInfoM)
    (h : lookupA st.sessions sid = some info) :
    release st sid
      = Prod.mk
          { st with sessions :=
              upsertA st.sessions sid { info with ref_count := info.ref_count - 1 } }
          (info.ref_count - 1) := by
  unfold release
  rw [h]

/-- A manager holding one session `"sid1"` with reference count 0. -/
def refDemoManager : ManagerState :=
  (get_or_create emptyManager "fingerprint1" "sid1" "/vmcore" "/vmlinux").1

/-- Counterexample to C3 as stated: on a registered session with count 0,
acquire-release-release leaves a stored reference count of -1 — the stored
count does not stay non-negative, and the second release went through the
decrement branch, not the not-found branch. -/
theorem c3_counterexample :
    (lookupA (release (release (acquire refDemoManager "sid1").1 "sid1").1
        "sid1").1.sessions "sid1").map SessionInfoM.ref_count = some (-1) ∧
    (release (release (acquire refDemoManager "sid1").1 "sid1").1 "sid1").2 = -1 := by
  exact ⟨rfl, rfl⟩

/-- C3 amended: `acquire` then `release` on a session with reference count 0
returns the count to 0; a further `release` on the still-registered session
decrements the stored count to -1 and returns -1 (numerically equal to the
not-found sentinel, with the stored count going negative); only a release of
an unregistered id takes the sentinel branch and changes nothing. -/
theorem c3_ref_count :
    ∀ (st : ManagerState) (sid : String) (info : SessionInfoM),
      lookupA st.sessions sid = some info →
      info.ref_count = 0 →
      (acquire st sid).2 = true ∧
      (release (acquire st sid).1 sid).2 = 0 ∧
      ((lookupA (release (acquire st sid).1 sid).1.sessions sid).map
        SessionInfoM.ref_count = some 0) ∧
      (release (release (acquire st sid).1 sid).1 sid).2 = -1 ∧
      ((lookupA (release (release (acquire st sid).1 sid).1 sid).1.sessions sid).map
        SessionInfoM.ref_count = some (-1)) ∧
      (∀ (st' : ManagerState), lookupA st'.sessions sid = none →
        (release st' sid).2 = -1 ∧ (release st' sid).1 = st') := by
  intro st sid info hlook hzero
  have h1 := acquire_found st sid info hlook
  have hl1 : lookupA (acquire st sid).1.sessions sid
      = some { info with ref_count := info.ref_count + 1 } := by
    rw [h1]
    exact lookupA_upsertA_self _ _ _
  have h2 := release_found (acquire st sid).1 sid
    { info with ref_count := info.ref_count + 1 } hl1
  have hl2 : lookupA (release (acquire st sid).1 sid).1.sessions sid
      = some { info with ref_count := info.ref_count + 1 - 1 } := by
    rw [h2]
    exact lookupA_upsertA_self _ _ _
  have h3 := release_found (release (acquire st sid).1 sid).1 sid
    { info with ref_count := info.ref_count + 1 - 1 } hl2
  refine ⟨by rw [h1], ?_, ?_, ?_, ?_, ?_⟩
  · rw [h2]
    show info.ref_count + 1 - 1 = 0
    omega
  · rw [hl2]
    show some (info.ref_count + 1 - 1) = some 0
    rw [hzero]
    norm_num
  · rw [h3]
    show info.ref_count + 1 - 1 - 1 = -1
    omega
  · have hl3 : lookupA (release (release (acquire st sid).1 sid).1 sid).1.sessions sid
        = some { info with ref_count := info.ref_count + 1 - 1 - 1 } := by
      rw [h3]
      exact lookupA_upsertA_self _ _ _
    rw [hl3]
    show some (info.ref_count + 1 - 1 - 1) = some (-1)
    rw [hzero]
    norm_num
  · intro st' hnone
    unfold release
    rw [hnone]
    exact ⟨rfl, rfl⟩

/-- Witness for C3 amended: the concrete one-session manager exercises the
acquire/release sequence and the not-found branch. -/
theorem c3_witness :
    (acquire refDemoManager "sid1").2 = true ∧
    (release (acquire refDemoManager "sid1").1 "sid1").2 = 0 ∧
    (release emptyManager "missing").2 = -1 := by
  have h := c3_ref_count refDemoManager "sid1"
    ((lookupA refDemoManager.sessions "sid1").getD
      { session_id := "", vmcore_md5 := "", vmcore_path := "", vmlinux_path := "",
        workdir := "", context := [], ref_count := 0 })
    (by rfl) (by rfl)
  exact ⟨h.1, h.2.1, (h.2.2.2.2.2 emptyManager (by rfl)).1⟩

/-!
Claim C9.  The claim fails as stated: `execute_command` passes
`pexpect.TIMEOUT` in the `expect` pattern list, so a timeout comes back as
match index 1, and the loop body logs a warning and breaks — the partial
output accumulated so far is cleaned and returned as an ordinary result, no
`Timeout` error is raised.  The rest of the claim holds: the session is not
marked dead by a timeout, and only end-of-stream raises and leaves the
session dead.
-/

/-- Counterexample to C9 as stated: a command whose round trip times out
returns an ordinary successful result (the cleaned partial output) with the
session still active, rather than failing with a Timeout error. -/
theorem c9_counterexample :
    executeCommandStep true "sys" true (.timeoutEvt "partial output")
      = (.ok "partial output", true) := by
  decide

/-- C9 amended: on an active session and a non-quit command, a timeout
returns the cleaned (and optionally truncated) partial output as a
successful result and leaves the session usable; end-of-stream raises the
closed error and leaves the session dead; a dead session always fails with
the not-active error. -/
theorem c9_timeout_and_eof :
    ∀ (command before : String) (truncate : Bool),
      quitTokens.contains (pyStrip command) = false →
      executeCommandStep true command truncate (.timeoutEvt before)
        = (.ok (if truncate then baseSmartTruncate (cleanOutput command before) command
                else cleanOutput command before), true) ∧
      executeCommandStep true command truncate (.eofEvt before)
        = (.errClosed "Session closed unexpectedly", false) ∧
      (∀ evt : PexpectEvent,
        executeCommandStep false command truncate evt = (.errNotActive, false)) := by
  intro command before truncate hquit
  refine ⟨?_, ?_, ?_⟩
  · unfold executeCommandStep
    rw [hquit]
    rfl
  · unfold executeCommandStep
    rw [hquit]
    rfl
  · intro evt
    rfl

/-- Witness for C9 amended: a concrete timed-out `sys` command succeeds with
its partial output and a concrete end-of-stream kills the session. -/
theorem c9_witness :
    executeCommandStep true "sys" false (.timeoutEvt "sys\npartial")
      = (.ok (cleanOutput "sys" "sys\npartial"), true) ∧
    executeCommandStep true "sys" false (.eofEvt "")
      = (.errClosed "Session closed unexpectedly", false) := by
  have h := c9_timeout_and_eof "sys" "sys\npartial" false (by decide)
  have h2 := c9_timeout_and_eof "sys" "" false (by decide)
  exact ⟨h.1, h2.2.1⟩

/-!
Claims C1, C4 and C2 concern `save`.  The lemmas below analyse its four
branches (new/existing entry, above/below the persistence criteria).
-/

/-- Fields written by every branch of `save`: the result is registered in
the command map under the computed id, and its identifier, timestamp,
duration, error flag, cached flag and line count come from this call. -/
theorem save_fields (digest : String → String) (cfg : ConfigM) (s : StoreState)
    (engine command output : String) (context : List (String × String))
    (is_error : Bool) (duration : ℚ) (force_save : Bool) (now : ℚ) :
    ∀ (s' : StoreState) (r : CommandResultM),
      save digest cfg s engine command output context is_error duration force_save now
        = (s', r) →
      lookupA s'.commands (makeId digest engine command context) = some r ∧
      r.timestamp = now ∧ r.duration = duration ∧ r.is_error = is_error ∧
      r.cached = false ∧ r.total_lines = (pySplitlines output).length := by
  intro s' r heq
  simp only [save] at heq
  iterate 6 (all_goals (try (split at heq)))
  all_goals injection heq with h1 h2
  all_goals subst h1
  all_goals subst h2
  all_goals exact ⟨lookupA_upsertA_self _ _ _, rfl, rfl, rfl, rfl, rfl⟩

/-- Content correctness of `save` outside the stale-file case: the stored
result's read path (file preferred, then blob) serves exactly the output
just saved.  The excluded case — a below-threshold save onto a file-backed
entry whose file is on disk — keeps the old file and is the subject of the
C1/C2/C4 counterexamples. -/
theorem save_read (digest : String → String) (cfg : ConfigM) (s : StoreState)
    (engine command output : String) (context : List (String × String))
    (is_error : Bool) (duration : ℚ) (force_save : Bool) (now : ℚ)
    (hns : staleFileSave digest cfg s engine command output context duration force_save
      = false) :
    ∀ (s' : StoreState) (r : CommandResultM),
      save digest cfg s engine command output context is_error duration force_save now
        = (s', r) →
      readResultText s' r = .ok output := by
  intro s' r heq
  simp only [save] at heq
  simp only [staleFileSave] at hns
  cases hl : lookupA s.commands (makeId digest engine command context) with
  | none =>
    rw [hl] at heq
    dsimp only at heq
    by_cases hs : shouldSaveB cfg (pySplitlines output).length duration force_save = true
    · rw [if_pos hs] at heq
      injection heq with h1 h2
      subst h1
      subst h2
      simp only [readResultText]
      rw [lookupA_upsertA_self]
    · rw [if_neg hs] at heq
      injection heq with h1 h2
      subst h1
      subst h2
      rfl
  | some existing =>
    rw [hl] at heq
    rw [hl] at hns
    dsimp only at heq
    dsimp only at hns
    by_cases hs : shouldSaveB cfg (pySplitlines output).length duration force_save = true
    · rw [if_pos hs] at heq
      cases hf : existing.output_file with
      | some p =>
        rw [hf] at heq
        dsimp only at heq
        injection heq with h1 h2
        subst h1
        subst h2
        simp only [readResultText]
        rw [lookupA_upsertA_self]
      | none =>
        rw [hf] at heq
        dsimp only at heq
        injection heq with h1 h2
        subst h1
        subst h2
        simp only [readResultText]
        rw [lookupA_upsertA_self]
    · have hs' : shouldSaveB cfg (pySplitlines output).length duration force_save = false := by
        revert hs
        cases shouldSaveB cfg (pySplitlines output).length duration force_save <;> simp
      rw [if_neg hs] at heq
      rw [hs'] at hns
      simp only [Bool.not_false, Bool.true_and] at hns
      cases hf : existing.output_file with
      | some p =>
        rw [hf] at heq
        rw [hf] at hns
        dsimp only at heq
        dsimp only at hns
        rw [hns] at heq
        simp only [Bool.false_eq_true, if_false, Option.isSome_none] at heq
        injection heq with h1 h2
        subst h1
        subst h2
        rfl
      | none =>
        rw [hf] at heq
        dsimp only at heq
        simp only [Option.isSome_none, Bool.false_eq_true, if_false] at heq
        injection heq with h1 h2
        subst h1
        subst h2
        rfl

/-- Read-path congruence: `readResultText` depends only on the files map and
the two storage fields of the result. -/
theorem readResultText_congr (s s' : StoreState) (r r' : CommandResultM)
    (hf : s'.files = s.files) (h1 : r'.output_file = r.output_file)
    (h2 : r'.output_content = r.output_content) :
    readResultText s' r' = readResultText s r := by
  unfold readResultText
  simp only [hf, h1, h2]

/-- Decidable equality on `Except`, needed to evaluate the concrete
counterexamples and witnesses below. -/
instance {e a : Type} [DecidableEq e] [DecidableEq a] : DecidableEq (Except e a) :=
  fun x y =>
  match x, y with
  | .error u, .error v =>
    if h : u = v then .isTrue (by rw [h]) else .isFalse fun hc => h (Except.error.inj hc)
  | .ok u, .ok v =>
    if h : u = v then .isTrue (by rw [h]) else .isFalse fun hc => h (Except.ok.inj hc)
  | .error _, .ok _ => .isFalse fun hc => Except.noConfusion hc
  | .ok _, .error _ => .isFalse fun hc => Except.noConfusion hc

/-!
Claim C1.  The claim fails as stated on the case it singles out: when the
old save was file-backed and the new save falls below the persistence
thresholds, `save` keeps the old file (and with it the old text served by
`get_lines`) while storing the new output only in the in-memory blob.
-/

/-- A store whose only entry is a force-saved (file-backed) `sys` output
reading `"old"`. -/
def staleStore1 : StoreState :=
  (save demoDigest defaultConfig emptyStore "crash" "sys" "old" [] false 0 true 0).1

/-- Re-saving the same id with output `"new"` below every persistence
threshold: the stale-file case. -/
def staleSave2 : StoreState × CommandResultM :=
  save demoDigest defaultConfig staleStore1 "crash" "sys" "new" [] false 0 false 1

/-- Counterexample to C1 as stated: after the below-threshold re-save of the
file-backed `sys` entry, `get_lines(id, 0, total)` still returns the old
file text `"old"`, not the newly saved `"new"`. -/
theorem c1_counterexample :
    get_lines staleSave2.1 (makeId demoDigest "crash" "sys" []) 0
        staleSave2.2.total_lines = .ok ("old", 1, 1, false) ∧
    joinLines (pySplitlines "new") = "new" ∧
    ("old" : String) ≠ "new" := by
  decide

/-- C1 amended: re-saving an existing id updates the entry in place
(timestamp, duration, error flag and line count always overwritten), and an
immediately following `get_lines(id, 0, total)` returns the new output's
lines — provided the save is not a below-threshold save onto a file-backed
entry whose file is still on disk (the case excluded by `staleFileSave`,
where the old file text keeps being served). -/
theorem c1_save_updates_in_place :
    ∀ (digest : String → String) (cfg : ConfigM) (s : StoreState)
      (engine command output : String) (context : List (String × String))
      (is_error : Bool) (duration : ℚ) (force_save : Bool) (now : ℚ),
      staleFileSave digest cfg s engine command output context duration force_save
        = false →
      (save digest cfg s engine command output context is_error duration force_save
        now).2.timestamp = now ∧
      (save digest cfg s engine command output context is_error duration force_save
        now).2.duration = duration ∧
      (save digest cfg s engine command output context is_error duration force_save
        now).2.is_error = is_error ∧
      (save digest cfg s engine command output context is_error duration force_save
        now).2.total_lines = (pySplitlines output).length ∧
      get_lines
        (save digest cfg s engine command output context is_error duration force_save
          now).1
        (makeId digest engine command context) 0 (pySplitlines output).length
        = .ok (joinLines (pySplitlines output), (pySplitlines output).length,
            (pySplitlines output).length, false) := by
  intro digest cfg s engine command output context is_error duration force_save now hns
  obtain ⟨hlook, hts, hdur, herr, hcac, htot⟩ :=
    save_fields digest cfg s engine command output context is_error duration
      force_save now _ _ Prod.mk.eta.symm
  have hread :=
    save_read digest cfg s engine command output context is_error duration
      force_save now hns _ _ Prod.mk.eta.symm
  refine ⟨hts, hdur, herr, htot, ?_⟩
  unfold get_lines
  rw [hlook]
  dsimp only
  rw [hread]
  dsimp only
  rw [List.drop_zero, List.take_length]
  have hmore : decide (0 + (pySplitlines output).length < (pySplitlines output).length)
      = false := by
    rw [decide_eq_false_iff_not]
    omega
  rw [hmore]

/-- Witness for C1 amended: a fresh two-line save is fully served back by
`get_lines`. -/
theorem c1_witness :
    (save demoDigest defaultConfig emptyStore "crash" "sys" "hello\nworld" []
      false 0 false 5).2.timestamp = 5 ∧
    get_lines
      (save demoDigest defaultConfig emptyStore "crash" "sys" "hello\nworld" []
        false 0 false 5).1
      (makeId demoDigest "crash" "sys" []) 0 2
      = .ok ("hello\nworld", 2, 2, false) := by
  have h := c1_save_updates_in_place demoDigest defaultConfig emptyStore "crash"
    "sys" "hello\nworld" [] false 0 false 5 (by decide)
  refine ⟨h.1, ?_⟩
  have h5 := h.2.2.2.2
  have hl : (pySplitlines "hello\nworld").length = 2 := by decide
  have hj : joinLines (pySplitlines "hello\nworld") = "hello\nworld" := by decide
  rw [hl, hj] at h5
  exact h5

/-!
Claim C4.  The error-flag half of the claim holds unconditionally; the
same-content half fails in the stale-file case, where the cached result's
read path serves the old file text.
-/

/-- Counterexample to C4 as stated: after the below-threshold re-save of the
file-backed `sys` entry with `"new"` and `isError = false`, `get_cached`
returns a hit whose read path serves the old `"old"` text, not the content
just saved. -/
theorem c4_counterexample :
    (get_cached demoDigest staleSave2.1 "crash" "sys" []).1
      = some { staleSave2.2 with cached := true } ∧
    readResultText (get_cached demoDigest staleSave2.1 "crash" "sys" []).2
      { staleSave2.2 with cached := true } = .ok "old" ∧
    ("old" : String) ≠ "new" := by
  decide

/-- C4 amended: a save with `isError = true` is never returned by
`get_cached`; a save with `isError = false` is returned with `cached = true`
and — outside the stale-file case excluded by `staleFileSave` — its read
path serves exactly the content just saved. -/
theorem c4_cache_error_and_content :
    (∀ (digest : String → String) (cfg : ConfigM) (s : StoreState)
        (engine command output : String) (context : List (String × String))
        (duration : ℚ) (force_save : Bool) (now : ℚ),
      (get_cached digest
        (save digest cfg s engine command output context true duration force_save
          now).1 engine command context).1 = none) ∧
    (∀ (digest : String → String) (cfg : ConfigM) (s : StoreState)
        (engine command output : String) (context : List (String × String))
        (duration : ℚ) (force_save : Bool) (now : ℚ),
      staleFileSave digest cfg s engine command output context duration force_save
        = false →
      (get_cached digest
        (save digest cfg s engine command output context false duration force_save
          now).1 engine command context).1
        = some { (save digest cfg s engine command output context false duration
            force_save now).2 with cached := true } ∧
      readResultText
        (get_cached digest
          (save digest cfg s engine command output context false duration force_save
            now).1 engine command context).2
        { (save digest cfg s engine command output context false duration force_save
            now).2 with cached := true }
        = .ok output) := by
  constructor
  · intro digest cfg s engine command output context duration force_save now
    obtain ⟨hlook, hts, hdur, herr, hcac, htot⟩ :=
      save_fields digest cfg s engine command output context true duration
        force_save now _ _ Prod.mk.eta.symm
    simp only [get_cached]
    rw [hlook]
    dsimp only
    rw [herr]
    rfl
  · intro digest cfg s engine command output context duration force_save now hns
    obtain ⟨hlook, hts, hdur, herr, hcac, htot⟩ :=
      save_fields digest cfg s engine command output context false duration
        force_save now _ _ Prod.mk.eta.symm
    have hread :=
      save_read digest cfg s engine command output context false duration
        force_save now hns _ _ Prod.mk.eta.symm
    constructor
    · simp only [get_cached]
      rw [hlook]
      dsimp only
      rw [herr]
      rfl
    · have hstate : (get_cached digest
          (save digest cfg s engine command output context false duration force_save
            now).1 engine command context).2
          = { (save digest cfg s engine command output context false duration
                force_save now).1 with
              commands := upsertA
                (save digest cfg s engine command output context false duration
                  force_save now).1.commands
                (makeId digest engine command context)
                { (save digest cfg s engine command output context false duration
                    force_save now).2 with cached := true } } := by
        simp only [get_cached]
        rw [hlook]
        dsimp only
        rw [herr]
        rfl
      rw [hstate]
      exact (readResultText_congr _ _ _ _ rfl rfl rfl).trans hread

/-- Witness for C4 amended: an error save is invisible to the cache and a
fresh non-error save comes back with its content and the cached flag. -/
theorem c4_witness :
    (get_cached demoDigest
      (save demoDigest defaultConfig emptyStore "crash" "sys" "boom" [] true 0
        false 0).1 "crash" "sys" []).1 = none ∧
    (get_cached demoDigest
      (save demoDigest defaultConfig emptyStore "crash" "sys" "fine" [] false 0
        false 0).1 "crash" "sys" []).1
      = some { (save demoDigest defaultConfig emptyStore "crash" "sys" "fine" []
          false 0 false 0).2 with cached := true } ∧
    readResultText
      (get_cached demoDigest
        (save demoDigest defaultConfig emptyStore "crash" "sys" "fine" [] false 0
          false 0).1 "crash" "sys" []).2
      { (save demoDigest defaultConfig emptyStore "crash" "sys" "fine" [] false 0
          false 0).2 with cached := true } = .ok "fine" := by
  have ha := c4_cache_error_and_content.1 demoDigest defaultConfig emptyStore
    "crash" "sys" "boom" [] 0 false 0
  have hb := c4_cache_error_and_content.2 demoDigest defaultConfig emptyStore
    "crash" "sys" "fine" [] 0 false 0 (by decide)
  exact ⟨ha, hb.1, hb.2⟩

/-!
Claim C2.  The storage-field invariant, stated over arbitrary operation
sequences.  The claim fails as stated — the stale-file save leaves both
fields populated — and holds for every sequence that avoids that save.
-/

/-- The storage-field invariant: every stored result has at most one of the
two storage fields populated, and a populated file field points at a file
that exists. -/
def storeInv (s : StoreState) : Prop :=
  ∀ (cid : String) (r : CommandResultM),
    lookupA s.commands cid = some r →
    (r.output_file = none ∨ r.output_content = none) ∧
    (∀ p : String, r.output_file = some p → (lookupA s.files p).isSome = true)

theorem lookupA_upsertA_cases {α : Type} (m : List (String × α)) (k k' : String)
    (v r : α) (h : lookupA (upsertA m k v) k' = some r) :
    (k' = k ∧ r = v) ∨ (k' ≠ k ∧ lookupA m k' = some r) := by
  by_cases hk : k' = k
  · subst hk
    rw [lookupA_upsertA_self] at h
    exact Or.inl ⟨rfl, (Option.some.inj h).symm⟩
  · rw [lookupA_upsertA_ne _ _ _ _ hk] at h
    exact Or.inr ⟨hk, h⟩

theorem lookupA_upsertA_isSome {α : Type} (m : List (String × α)) (k k' : String)
    (v : α) (h : (lookupA m k').isSome = true) :
    (lookupA (upsertA m k v) k').isSome = true := by
  by_cases hk : k' = k
  · subst hk
    rw [lookupA_upsertA_self]
    rfl
  · rw [lookupA_upsertA_ne _ _ _ _ hk]
    exact h

/-- Inserting a memory-only result (no file field) into a store preserves
the invariant, for any manifest and index. -/
theorem storeInv_upsert_mem (s : StoreState) (hInv : storeInv s) (cid : String)
    (r : CommandResultM) (hr : r.output_file = none)
    (m' : List (String × ManifestEntryM)) (i : Nat) :
    storeInv { commands := upsertA s.commands cid r, files := s.files,
               manifest := m', index := i } := by
  intro cid' r' hr'
  rcases lookupA_upsertA_cases _ _ _ _ _ hr' with ⟨hk, hv⟩ | ⟨hne, hold⟩
  · subst hv
    refine ⟨Or.inl hr, ?_⟩
    intro p hp
    rw [hr] at hp
    exact Option.noConfusion hp
  · exact hInv _ _ hold

/-- Inserting a file-backed result (no blob) while writing its file
preserves the invariant, for any manifest and index. -/
theorem storeInv_upsert_file (s : StoreState) (hInv : storeInv s) (cid : String)
    (r : CommandResultM) (path output : String) (hrf : r.output_file = some path)
    (hrc : r.output_content = none) (m' : List (String × ManifestEntryM)) (i : Nat) :
    storeInv { commands := upsertA s.commands cid r,
               files := upsertA s.files path output,
               manifest := m', index := i } := by
  intro cid' r' hr'
  rcases lookupA_upsertA_cases _ _ _ _ _ hr' with ⟨hk, hv⟩ | ⟨hne, hold⟩
  · subst hv
    refine ⟨Or.inr hrc, ?_⟩
    intro p hp
    rw [hrf] at hp
    cases hp
    rw [lookupA_upsertA_self]
    rfl
  · obtain ⟨h1, h2⟩ := hInv _ _ hold
    exact ⟨h1, fun p hp => lookupA_upsertA_isSome _ _ _ _ (h2 p hp)⟩

/-- `save` preserves the storage-field invariant outside the stale-file
case. -/
theorem save_preserves_inv (digest : String → String) (cfg : ConfigM)
    (s : StoreState) (engine command output : String)
    (context : List (String × String)) (is_error : Bool) (duration : ℚ)
    (force_save : Bool) (now : ℚ) (hInv : storeInv s)
    (hns : staleFileSave digest cfg s engine command output context duration
      force_save = false) :
    storeInv
      (save digest cfg s engine command output context is_error duration
        force_save now).1 := by
  obtain ⟨s', r, heq⟩ :
      ∃ s' r, save digest cfg s engine command output context is_error duration
        force_save now = (s', r) := ⟨_, _, rfl⟩
  rw [heq]
  simp only [save] at heq
  simp only [staleFileSave] at hns
  cases hl : lookupA s.commands (makeId digest engine command context) with
  | none =>
    rw [hl] at heq
    dsimp only at heq
    by_cases hs : shouldSaveB cfg (pySplitlines output).length duration force_save = true
    · rw [if_pos hs] at heq
      injection heq with h1 h2
      rw [← h1]
      exact storeInv_upsert_file s hInv _ _ _ output rfl rfl _ _
    · rw [if_neg hs] at heq
      injection heq with h1 h2
      rw [← h1]
      exact storeInv_upsert_mem s hInv _ _ rfl _ _
  | some existing =>
    rw [hl] at heq
    rw [hl] at hns
    dsimp only at heq
    dsimp only at hns
    by_cases hs : shouldSaveB cfg (pySplitlines output).length duration force_save = true
    · rw [if_pos hs] at heq
      cases hf : existing.output_file with
      | some p =>
        rw [hf] at heq
        dsimp only at heq
        injection heq with h1 h2
        rw [← h1]
        exact storeInv_upsert_file s hInv _ _ _ output rfl rfl _ _
      | none =>
        rw [hf] at heq
        dsimp only at heq
        injection heq with h1 h2
        rw [← h1]
        exact storeInv_upsert_file s hInv _ _ _ output rfl rfl _ _
    · have hs' : shouldSaveB cfg (pySplitlines output).length duration force_save
          = false := by
        revert hs
        cases shouldSaveB cfg (pySplitlines output).length duration force_save <;> simp
      rw [if_neg hs] at heq
      rw [hs'] at hns
      simp only [Bool.not_false, Bool.true_and] at hns
      cases hf : existing.output_file with
      | some p =>
        rw [hf] at hns
        dsimp only at hns
        have := (hInv _ _ hl).2 p hf
        rw [hns] at this
        exact absurd this (by simp)
      | none =>
        rw [hf] at heq
        dsimp only at heq
        simp only [Option.isSome_none, Bool.false_eq_true, if_false] at heq
        injection heq with h1 h2
        rw [← h1]
        exact storeInv_upsert_mem s hInv _ _ rfl _ _

/-- `get_cached` preserves the storage-field invariant: it only flips the
cached flag of an existing entry. -/
theorem getCached_preserves_inv (digest : String → String) (s : StoreState)
    (engine command : String) (context : List (String × String))
    (hInv : storeInv s) :
    storeInv (get_cached digest s engine command context).2 := by
  obtain ⟨o, s', heq⟩ :
      ∃ o s', get_cached digest s engine command context = (o, s') := ⟨_, _, rfl⟩
  rw [heq]
  simp only [get_cached] at heq
  cases hl : lookupA s.commands (makeId digest engine command context) with
  | none =>
    rw [hl] at heq
    dsimp only at heq
    injection heq with h1 h2
    rw [← h2]
    exact hInv
  | some r =>
    rw [hl] at heq
    dsimp only at heq
    by_cases hre : r.is_error = true
    · rw [if_pos hre] at heq
      injection heq with h1 h2
      rw [← h2]
      exact hInv
    · rw [if_neg hre] at heq
      injection heq with h1 h2
      rw [← h2]
      intro cid' r' hr'
      rcases lookupA_upsertA_cases _ _ _ _ _ hr' with ⟨hk, hv⟩ | ⟨hne, hold⟩
      · subst hv
        exact ⟨(hInv _ _ hl).1, (hInv _ _ hl).2⟩
      · exact hInv _ _ hold

/-- One manifest record preserves the storage-field invariant: loaded
entries never carry an in-memory blob, and their file is checked to exist. -/
theorem loadManifestEntry_preserves_inv (s : StoreState) (cid : String)
    (info : ManifestEntryM) (hInv : storeInv s) :
    storeInv (loadManifestEntry s cid info) := by
  simp only [loadManifestEntry]
  cases hof : (if falsyStr info.output_file = true then none else info.output_file) with
  | none =>
    dsimp only
    by_cases hfe : (falsyStr info.command || falsyStr info.engine) = true
    · rw [if_pos hfe]
      exact hInv
    · rw [if_neg hfe]
      intro cid' r' hr'
      rcases lookupA_upsertA_cases _ _ _ _ _ hr' with ⟨hk, hv⟩ | ⟨hne, hold⟩
      · subst hv
        exact ⟨Or.inl rfl, fun p hp => Option.noConfusion hp⟩
      · exact hInv _ _ hold
  | some p =>
    dsimp only
    by_cases hmiss : (lookupA s.files p).isNone = true
    · rw [if_pos hmiss]
      exact hInv
    · rw [if_neg hmiss]
      by_cases hfe : (falsyStr info.command || falsyStr info.engine) = true
      · rw [if_pos hfe]
        exact hInv
      · rw [if_neg hfe]
        intro cid' r' hr'
        rcases lookupA_upsertA_cases _ _ _ _ _ hr' with ⟨hk, hv⟩ | ⟨hne, hold⟩
        · subst hv
          refine ⟨Or.inr rfl, ?_⟩
          intro q hq
          cases hq
          cases hlf : lookupA s.files p with
          | none =>
            rw [hlf] at hmiss
            exact absurd rfl hmiss
          | some t => rfl
        · exact hInv _ _ hold

/-- Manifest loading preserves the storage-field invariant. -/
theorem loadManifest_preserves_inv (entries : List (String × ManifestEntryM)) :
    ∀ (s : StoreState), storeInv s → storeInv (loadManifest s entries) := by
  induction entries with
  | nil =>
    intro s h
    exact h
  | cons e rest ih =>
    intro s h
    simp only [loadManifest, List.foldl_cons]
    exact ih _ (loadManifestEntry_preserves_inv s e.1 e.2 h)

/-- The storage-field invariant holds after every checked run. -/
theorem runChecked_inv (digest : String → String) (cfg : ConfigM) :
    ∀ (ops : List StoreOp) (s : StoreState), storeInv s →
      ∀ (s' : StoreState), runChecked digest cfg s ops = some s' → storeInv s' := by
  intro ops
  induction ops with
  | nil =>
    intro s hInv s' h
    simp only [runChecked] at h
    rw [← Option.some.inj h]
    exact hInv
  | cons op rest ih =>
    intro s hInv s' h
    cases op with
    | saveOp engine command output context is_error duration force_save now =>
      simp only [runChecked] at h
      by_cases hchk : staleFileSave digest cfg s engine command output context
          duration force_save = true
      · rw [if_pos hchk] at h
        exact Option.noConfusion h
      · rw [if_neg hchk] at h
        have hns : staleFileSave digest cfg s engine command output context
            duration force_save = false := by
          revert hchk
          cases staleFileSave digest cfg s engine command output context
            duration force_save <;> simp
        simp only [applyOp] at h
        exact ih _ (save_preserves_inv digest cfg s engine command output context
          is_error duration force_save now hInv hns) s' h
    | getCachedOp engine command context =>
      simp only [runChecked, applyOp] at h
      exact ih _ (getCached_preserves_inv digest s engine command context hInv) s' h
    | loadManifestOp entries =>
      simp only [runChecked, applyOp] at h
      exact ih _ (loadManifest_preserves_inv entries s hInv) s' h

/-- Counterexample to C2 as stated: the below-threshold re-save of the
file-backed `sys` entry (a save; save sequence of store operations) yields a
`CommandResult` with both storage fields populated — the stale file next to
the fresh in-memory blob. -/
theorem c2_counterexample :
    staleSave2.2.output_file ≠ none ∧ staleSave2.2.output_content = some "new" := by
  decide

/-- C2 amended: over every sequence of store operations (save, repeated
save, get_cached, manifest load) in which no save is a below-threshold save
onto a file-backed entry whose file is on disk (the `runChecked` side
condition), every reachable `CommandResult` has at most one storage field
populated. -/
theorem c2_storage_fields_invariant :
    ∀ (digest : String → String) (cfg : ConfigM) (ops : List StoreOp)
      (s' : StoreState),
      runChecked digest cfg emptyStore ops = some s' →
      ∀ (cid : String) (r : CommandResultM),
        lookupA s'.commands cid = some r →
        r.output_file = none ∨ r.output_content = none := by
  intro digest cfg ops s' h cid r hr
  have hempty : storeInv emptyStore := by
    intro cid' r' h'
    simp [emptyStore, lookupA] at h'
  exact ((runChecked_inv digest cfg ops emptyStore hempty s' h) cid r hr).1

/-- The operation sequence of the C2 witness: two memory saves of the same
id followed by a cache hit. -/
def c2DemoOps : List StoreOp :=
  [.saveOp "crash" "sys" "hello" [] false 0 false 0,
   .saveOp "crash" "sys" "hello again" [] false 0 false 1,
   .getCachedOp "crash" "sys" []]

/-- The final state of the C2 witness run. -/
def c2DemoFinal : StoreState :=
  (runChecked demoDigest defaultConfig emptyStore c2DemoOps).getD emptyStore

/-- The stored entry of the C2 witness run. -/
def c2DemoEntry : CommandResultM :=
  (lookupA c2DemoFinal.commands (makeId demoDigest "crash" "sys" [])).getD dummyResult

/-- Witness for C2 amended: the checked demo run succeeds and its stored
entry has at most one storage field populated. -/
theorem c2_witness :
    c2DemoEntry.output_file = none ∨ c2DemoEntry.output_content = none :=
  c2_storage_fields_invariant demoDigest defaultConfig c2DemoOps c2DemoFinal
    (by rfl) (makeId demoDigest "crash" "sys" []) c2DemoEntry (by rfl)
